import Mathlib

/-!
Shallow embedding of `packages/backend/src/controllers/githubController.ts`
(the GitHub App OAuth linking controller): the initiation endpoint
`installGithubAppForOrganization` and the callback endpoint
`githubOauthCallback`, together with theorems about the callback state
machine, the session OAuth context and the state-token generation.

External collaborators are modelled as explicit inputs: the provider
(code exchange and installation listing) is a record of functions, the
session is a value threaded in and out, and side effects (provider call
counts, credential-store upserts) are collected in an effect record so
that claims about call counts and store mutations are statable.
-/

namespace Lightdash

/-- The per-session OAuth context `req.session.oauth`: the object itself can
be absent (the controller reads it with `req.session.oauth?.state`), and each
field of the object can be absent. `inviteCode` holds the initiating user
uuid, exactly as in the source. -/
structure SessionOAuth where
  state : Option String
  returnTo : Option String
  inviteCode : Option String
deriving DecidableEq, Repr

/-- The empty object `{}` the controller assigns to `req.session.oauth` when
it clears the context: an object that is present but has no fields set. -/
def emptyOAuth : SessionOAuth := { state := none, returnTo := none, inviteCode := none }

/-- The `authentication` object returned by the provider code exchange
(`getGithubApp().oauth.createToken`): an access token and an optional
refresh token. -/
structure TokenAuth where
  token : String
  refreshToken : Option String
deriving DecidableEq, Repr

/-- The identity provider as seen by the callback: `createToken` exchanges an
authorization code (and can throw, modelled as `Except.error`);
`listInstallations` lists, for a bearer token, the numeric ids of the
installations visible to the authenticated user
(`apps.listInstallationsForAuthenticatedUser`; only the `id` field of each
installation is consumed by the controller, so an installation is modelled by
its id). -/
structure Provider where
  createToken : String → Except String TokenAuth
  listInstallations : String → Except String (List Int)

/-- The errors the callback can throw, one constructor per `throw` site in
the source (`providerError` stands for an exception propagating out of a
provider call). `invalidAuthToken` is the `ForbiddenError` thrown when the
refresh token is absent; `invalidURL` is the `TypeError` thrown by
`new URL` on an input that is not an absolute URL. -/
inductive CallbackError where
  | stateMismatch
  | userUuidMissing
  | installationIdMissing
  | invalidAuthToken
  | invalidInstallationId
  | invalidURL
  | providerError (msg : String)
deriving DecidableEq, Repr

/-- The observable side effects of one callback run: how many times the code
exchange and the installation listing were called, and the list of
credential-store upserts performed, each upsert carrying
(userUuid, installation_id, token, refreshToken) as passed to
`upsertInstallation`. -/
structure Effects where
  createTokenCalls : Nat
  listInstallationsCalls : Nat
  upserts : List (String × String × String × String)
deriving DecidableEq, Repr

/-- No provider call and no store mutation. -/
def noEffects : Effects := { createTokenCalls := 0, listInstallationsCalls := 0, upserts := [] }

/-- The outcome of one callback run: the last status set via `setStatus`
(`none` when no status was ever set), the `Location` header if set, the
session OAuth context after the run, the error thrown if any, and the
side effects. -/
structure CallbackResult where
  status : Option Nat
  location : Option String
  session : Option SessionOAuth
  error : Option CallbackError
  effects : Effects
deriving DecidableEq, Repr

/-- JavaScript truthiness test `!x` for a string-or-undefined value: true on
`undefined` and on the empty string. -/
def jsFalsy : Option String → Bool
  | none => true
  | some s => s.data.isEmpty

/-- JavaScript `x || y` for a string-or-undefined `x` and a string `y`: `y`
is used when `x` is undefined or the empty string. -/
def jsOrElse (x : Option String) (y : String) : String :=
  match x with
  | none => y
  | some s => if s.data.isEmpty then y else s

/-- Model of the WHATWG `new URL(input)` constructor called with a single
argument, as in `new URL(req.session.oauth?.returnTo || '/')`: it succeeds
only when the input is an absolute URL carrying a scheme, and throws a
TypeError (Invalid URL) on a bare path such as "/". The source only ever
feeds it either an absolute http(s) href (produced at initiation) or the
"/" fallback, so the model recognises http and https schemes and returns
the href unchanged for an already-normalised absolute URL. -/
def newURL (s : String) : Option String :=
  if "http://".data.isPrefixOf s.data || "https://".data.isPrefixOf s.data then
    some s
  else none

/-- The groups of characters between slashes, like `String.splitOn "/"`. -/
def splitOnSlash : List Char → List (List Char)
  | [] => [[]]
  | c :: cs =>
    if c = '/' then [] :: splitOnSlash cs
    else
      match splitOnSlash cs with
      | [] => [[c]]
      | g :: gs => (c :: g) :: gs

/-- Model of `new URL(path, base).href` for a root-relative path, as in
`new URL('/generalSettings/integrations', lightdashConfig.siteUrl)`: the
scheme-and-host part of the base followed by the path. -/
def resolveRootPath (path base : String) : String :=
  match splitOnSlash base.data with
  | scheme :: [] :: host :: _ =>
      String.mk scheme ++ "//" ++ String.mk host ++ path
  | _ => path

/-- Removes the first underscore of a list of characters, keeping any later
occurrence in place. -/
def dropFirstUnderscore : List Char → List Char
  | [] => []
  | c :: cs => if c = '_' then cs else c :: dropFirstUnderscore cs

/-- JavaScript `s.replace('_', '')`: with a string pattern, `replace`
removes only the FIRST occurrence of the pattern; later occurrences are
left in place. -/
def jsReplaceFirstUnderscore (s : String) : String :=
  String.mk (dropFirstUnderscore s.data)

/-- The alphabet of the `nanoid` default generator (`urlAlphabet` from the
nanoid package): note that it contains the underscore, so a raw nanoid
output can contain one or more underscores. -/
def urlAlphabet : String := "useandom-26T198340PX75pxJACKVERYMINDBUSHWOLF_GQZbfghjklqvwyzrict"

/-- The slice of `lightdashConfig` the controller reads. -/
structure LightdashConfig where
  siteUrl : String
  redirectDomain : String
  appName : String
deriving DecidableEq, Repr

/-- The outcome of the initiation endpoint: status, `Location` header, and
the session OAuth context after the run. -/
structure InstallResult where
  status : Option Nat
  location : Option String
  session : Option SessionOAuth
deriving DecidableEq, Repr

/-- Embedding of `installGithubAppForOrganization`. `prevSession` is the
session OAuth context before the call (the source overwrites it wholesale
with `req.session.oauth = {}` followed by three field assignments);
`nanoidOut` is the raw output of `nanoid()`; `redirectQueryParam` is the
`redirect` query parameter named in the endpoint doc comment, which the
body never reads. -/
def installGithubAppForOrganization (cfg : LightdashConfig)
    (prevSession : Option SessionOAuth) (nanoidOut : String)
    (userUuid : String) (redirectQueryParam : Option String) : InstallResult :=
  let returnToUrl := resolveRootPath "/generalSettings/integrations" cfg.siteUrl
  let randomID := jsReplaceFirstUnderscore nanoidOut
  let state := cfg.redirectDomain ++ "_" ++ randomID
  { status := some 302
    location := some ("https://github.com/apps/" ++ cfg.appName ++
      "/installations/new?state=" ++ state)
    session := some { state := some state, returnTo := some returnToUrl,
                      inviteCode := some userUuid } }

/-- Embedding of `githubOauthCallback`, mirroring the source statement by
statement:
1. `if (!state || state !== req.session.oauth?.state)` → 400, throw;
2. `if (setup_action === 'review')` → setStatus(200) and FALL THROUGH
   (the source has no return in that branch);
3. `if (!userUuid)` → 400, throw; `if (!installation_id)` → 400, throw;
4. `if (code)` → exchange the code, require a refresh token, list the
   installations of the token holder, search for the claimed id by string
   comparison, upsert the credential, build the redirect URL, clear the
   session, setStatus(302) and set the Location header;
   with no `code` the body of the `if` is skipped and the run ends. -/
def githubOauthCallback (provider : Provider) (sess : Option SessionOAuth)
    (code state installation_id setup_action : Option String) : CallbackResult :=
  if jsFalsy state ∨ state ≠ sess.bind SessionOAuth.state then
    { status := some 400, location := none, session := sess,
      error := some .stateMismatch, effects := noEffects }
  else
    let reviewStatus : Option Nat := if setup_action = some "review" then some 200 else none
    let userUuid := sess.bind SessionOAuth.inviteCode
    if jsFalsy userUuid then
      { status := some 400, location := none, session := sess,
        error := some .userUuidMissing, effects := noEffects }
    else if jsFalsy installation_id then
      { status := some 400, location := none, session := sess,
        error := some .installationIdMissing, effects := noEffects }
    else if jsFalsy code then
      { status := reviewStatus, location := none, session := sess,
        error := none, effects := noEffects }
    else
      match provider.createToken (code.getD "") with
      | .error e =>
        { status := reviewStatus, location := none, session := sess,
          error := some (.providerError e),
          effects := { createTokenCalls := 1, listInstallationsCalls := 0, upserts := [] } }
      | .ok auth =>
        match auth.refreshToken with
        | none =>
          { status := reviewStatus, location := none, session := sess,
            error := some .invalidAuthToken,
            effects := { createTokenCalls := 1, listInstallationsCalls := 0, upserts := [] } }
        | some refreshTok =>
          match provider.listInstallations auth.token with
          | .error e =>
            { status := reviewStatus, location := none, session := sess,
              error := some (.providerError e),
              effects := { createTokenCalls := 1, listInstallationsCalls := 1, upserts := [] } }
          | .ok installs =>
            match installs.find? (fun i => toString i == installation_id.getD "") with
            | none =>
              { status := reviewStatus, location := none, session := sess,
                error := some .invalidInstallationId,
                effects := { createTokenCalls := 1, listInstallationsCalls := 1, upserts := [] } }
            | some _ =>
              let committed : Effects :=
                { createTokenCalls := 1, listInstallationsCalls := 1,
                  upserts := [(userUuid.getD "", installation_id.getD "",
                               auth.token, refreshTok)] }
              match newURL (jsOrElse (sess.bind SessionOAuth.returnTo) "/") with
              | none =>
                { status := reviewStatus, location := none, session := sess,
                  error := some .invalidURL, effects := committed }
              | some href =>
                { status := some 302, location := some href,
                  session := some emptyOAuth, error := none, effects := committed }

/-! Concrete fixtures used by witnesses and counterexamples. -/

/-- A session with a pending context, as the initiation endpoint leaves it. -/
def sessFull : Option SessionOAuth :=
  some { state := some "eu_AbC123",
         returnTo := some "https://app.example.com/generalSettings/integrations",
         inviteCode := some "user-1" }

/-- A session whose pending context has a state but no stored returnTo. -/
def sessNoReturn : Option SessionOAuth :=
  some { state := some "eu_AbC123", returnTo := none, inviteCode := some "user-1" }

/-- A provider for which code "codeX" exchanges into token "T" with refresh
token "R", and token "T" sees exactly installation 55. -/
def providerMatch : Provider :=
  { createToken := fun c =>
      if c == "codeX" then .ok { token := "T", refreshToken := some "R" }
      else .error "bad code"
    listInstallations := fun t =>
      if t == "T" then .ok [55] else .error "unauthorized" }

/-- Like `providerMatch`, but the token holder sees only installation 77. -/
def providerNoMatch : Provider :=
  { createToken := fun c =>
      if c == "codeX" then .ok { token := "T", refreshToken := some "R" }
      else .error "bad code"
    listInstallations := fun t =>
      if t == "T" then .ok [77] else .error "unauthorized" }

/-- A provider whose code exchange grants a token but no refresh token. -/
def providerNoRefresh : Provider :=
  { createToken := fun c =>
      if c == "codeX" then .ok { token := "T", refreshToken := none }
      else .error "bad code"
    listInstallations := fun t =>
      if t == "T" then .ok [55] else .error "unauthorized" }

/-- A config with an https site URL. -/
def cfg0 : LightdashConfig :=
  { siteUrl := "https://app.example.com", redirectDomain := "eu", appName := "lightdash-app" }

/-- A 21-character output the nanoid generator can produce (every character
is in `urlAlphabet`) that contains two underscores. -/
def badNanoidOutput : String := "useandom26_MINDBUSH_c"

/-- A session whose pending context has a state and a returnTo but no
initiating user uuid. -/
def sessNoUser : Option SessionOAuth :=
  some { state := some "eu_AbC123",
         returnTo := some "https://app.example.com/generalSettings/integrations",
         inviteCode := none }

/-- C2: a callback whose state query parameter is absent or not exactly
equal to the pending state stored in the session (including when no pending
context exists) is rejected with a 400 client error before any provider
call (code exchange count and installation-list count are zero), with no
store mutation, and with the session OAuth context left unchanged. -/
theorem C2_state_mismatch_rejected_before_any_provider_call
    (provider : Provider) (sess : Option SessionOAuth)
    (code state installation_id setup_action : Option String)
    (h : state = none ∨ state ≠ sess.bind SessionOAuth.state) :
    githubOauthCallback provider sess code state installation_id setup_action =
      { status := some 400, location := none, session := sess,
        error := some .stateMismatch, effects := noEffects } := by
  have hcond : jsFalsy state ∨ state ≠ sess.bind SessionOAuth.state := by
    rcases h with h | h
    · left; rw [h]; rfl
    · right; exact h
  unfold githubOauthCallback
  rw [if_pos hcond]

/-- Witness for C2: the session holds pending state "eu_AbC123" and the
callback arrives with state "eu_WRONG". -/
theorem C2_witness :
    (some "eu_WRONG" ≠ sessFull.bind SessionOAuth.state) ∧
    githubOauthCallback providerMatch sessFull (some "codeX") (some "eu_WRONG")
        (some "55") none =
      { status := some 400, location := none, session := sessFull,
        error := some .stateMismatch, effects := noEffects } :=
  ⟨by decide,
   C2_state_mismatch_rejected_before_any_provider_call providerMatch sessFull
     (some "codeX") (some "eu_WRONG") (some "55") none (Or.inr (by decide))⟩

/-- C1: when the state matches, all inputs are present, the code exchange
succeeds with a refresh token, and the provider installation list for the
obtained token contains no entry whose id (compared as a string) equals the
claimed installation_id, the callback terminates with the verification
failure and performs zero credential-store upserts, leaving the session
unchanged. -/
theorem C1_unverified_installation_is_never_written
    (provider : Provider) (sess : Option SessionOAuth)
    (code state installation_id setup_action : Option String)
    (auth : TokenAuth) (refreshTok : String) (installs : List Int)
    (hs : jsFalsy state = false)
    (hmatch : state = sess.bind SessionOAuth.state)
    (huser : jsFalsy (sess.bind SessionOAuth.inviteCode) = false)
    (hiid : jsFalsy installation_id = false)
    (hcode : jsFalsy code = false)
    (hex : provider.createToken (code.getD "") = .ok auth)
    (hrt : auth.refreshToken = some refreshTok)
    (hlist : provider.listInstallations auth.token = .ok installs)
    (hnotfound : ∀ i ∈ installs, toString i ≠ installation_id.getD "") :
    (githubOauthCallback provider sess code state installation_id setup_action).error
        = some CallbackError.invalidInstallationId ∧
    (githubOauthCallback provider sess code state installation_id setup_action).effects.upserts
        = [] ∧
    (githubOauthCallback provider sess code state installation_id setup_action).session
        = sess := by
  have hcond : ¬(jsFalsy state ∨ state ≠ sess.bind SessionOAuth.state) := by
    rintro (hb | hne)
    · simp [hs] at hb
    · exact hne hmatch
  have hfind : installs.find? (fun i => toString i == installation_id.getD "") = none := by
    rw [List.find?_eq_none]
    intro i hi
    simpa using hnotfound i hi
  unfold githubOauthCallback
  rw [if_neg hcond]
  simp [huser, hiid, hcode, hex, hrt, hlist, hfind]

/-- Witness for C1: the exchanged token sees only installation 77 while the
callback claims installation 55. -/
theorem C1_witness :
    (∀ i ∈ ([77] : List Int), toString i ≠ "55") ∧
    ((githubOauthCallback providerNoMatch sessFull (some "codeX") (some "eu_AbC123")
        (some "55") none).error = some CallbackError.invalidInstallationId ∧
     (githubOauthCallback providerNoMatch sessFull (some "codeX") (some "eu_AbC123")
        (some "55") none).effects.upserts = [] ∧
     (githubOauthCallback providerNoMatch sessFull (some "codeX") (some "eu_AbC123")
        (some "55") none).session = sessFull) :=
  ⟨by decide,
   C1_unverified_installation_is_never_written providerNoMatch sessFull
     (some "codeX") (some "eu_AbC123") (some "55") none
     { token := "T", refreshToken := some "R" } "R" [77]
     (by decide) (by decide) (by decide) (by decide) (by decide)
     rfl rfl rfl (by decide)⟩

/-- C3 (failing input): the claim says a valid-state callback with
setup_action = "review" responds 200 and stops with nothing persisted and no
code exchange; but the source merely sets the status and falls through, so
with code and installation_id also present the run performs the full
exchange, persists a credential, clears the session and ends at 302. -/
theorem C3_review_with_code_still_commits :
    githubOauthCallback providerMatch sessFull (some "codeX") (some "eu_AbC123")
        (some "55") (some "review") =
      { status := some 302,
        location := some "https://app.example.com/generalSettings/integrations",
        session := some emptyOAuth, error := none,
        effects := { createTokenCalls := 1, listInstallationsCalls := 1,
                     upserts := [("user-1", "55", "T", "R")] } } := by
  decide

/-- C4 (counterexample): a run that ends in the review short-circuit (status
200, no error, nothing persisted) leaves the session context in place, so
the context is NOT cleared on the review branch as the claim states. -/
theorem C4_counterexample_review_leaves_context :
    githubOauthCallback providerMatch sessFull none (some "eu_AbC123")
        (some "55") (some "review") =
      { status := some 200, location := none, session := sessFull,
        error := none, effects := noEffects } ∧
    sessFull ≠ some emptyOAuth := by
  decide

/-- C4 (amended): every callback run falls in exactly one of two cases.
Either the run does not end at the success status 302, and then the session
OAuth context is left exactly as it was (in particular the review branch
and every failure exit leave it untouched); or the run is a fully completed
success — it ends at status 302, with a Location header set and a
credential upsert performed — and then the context IS cleared to the empty
object. So the context is cleared exactly on the completed success path. -/
theorem C4_context_cleared_exactly_on_completed_success
    (provider : Provider) (sess : Option SessionOAuth)
    (code state installation_id setup_action : Option String) :
    ((githubOauthCallback provider sess code state installation_id setup_action).session
        = sess ∧
     (githubOauthCallback provider sess code state installation_id setup_action).status
        ≠ some 302) ∨
    ((githubOauthCallback provider sess code state installation_id setup_action).session
        = some emptyOAuth ∧
     (githubOauthCallback provider sess code state installation_id setup_action).status
        = some 302 ∧
     (githubOauthCallback provider sess code state installation_id setup_action).location
        ≠ none ∧
     (githubOauthCallback provider sess code state installation_id setup_action).effects.upserts
        ≠ []) := by
  by_cases h1 : jsFalsy state ∨ state ≠ sess.bind SessionOAuth.state
  · unfold githubOauthCallback
    rw [if_pos h1]
    exact Or.inl ⟨rfl, by simp⟩
  unfold githubOauthCallback
  rw [if_neg h1]
  cases hu : jsFalsy (sess.bind SessionOAuth.inviteCode) with
  | true => left; simp [hu]
  | false =>
  cases hi : jsFalsy installation_id with
  | true => left; simp [hu, hi]
  | false =>
  cases hc : jsFalsy code with
  | true => left; simp [hu, hi, hc]
  | false =>
  cases hex : provider.createToken (code.getD "") with
  | error e => left; simp [hu, hi, hc, hex]
  | ok auth =>
  cases hrt : auth.refreshToken with
  | none => left; simp [hu, hi, hc, hex, hrt]
  | some refreshTok =>
  cases hlist : provider.listInstallations auth.token with
  | error e => left; simp [hu, hi, hc, hex, hrt, hlist]
  | ok installs =>
  cases hfind : installs.find? (fun i => toString i == installation_id.getD "") with
  | none => left; simp [hu, hi, hc, hex, hrt, hlist, hfind]
  | some inst =>
  cases hurl : newURL (jsOrElse (sess.bind SessionOAuth.returnTo) "/") with
  | none => left; simp [hu, hi, hc, hex, hrt, hlist, hfind, hurl]
  | some href =>
  right
  simp [hu, hi, hc, hex, hrt, hlist, hfind, hurl]

/-- C5 (failing input): `nanoid().replace('_', '')` removes only the first
underscore, so a nanoid output with two underscores (possible, since the
nanoid alphabet contains the underscore) yields a state token whose part
after the namespace prefix "eu_" still contains the separator. -/
theorem C5_random_part_can_keep_a_separator :
    badNanoidOutput.length = 21 ∧
    badNanoidOutput.toList.all (fun c => urlAlphabet.toList.contains c) = true ∧
    (installGithubAppForOrganization cfg0 none badNanoidOutput "user-1" none).session.bind
        SessionOAuth.state = some ("eu" ++ "_" ++ "useandom26MINDBUSH_c") ∧
    "useandom26MINDBUSH_c".toList.contains '_' = true := by
  decide

/-- C6: when the state matches, all inputs are present and the code exchange
succeeds but the returned authentication carries no refresh token, the
callback terminates with the ForbiddenError (access denied) and performs
zero credential-store upserts, leaving the session unchanged. -/
theorem C6_missing_refresh_token_writes_nothing
    (provider : Provider) (sess : Option SessionOAuth)
    (code state installation_id setup_action : Option String)
    (auth : TokenAuth)
    (hs : jsFalsy state = false)
    (hmatch : state = sess.bind SessionOAuth.state)
    (huser : jsFalsy (sess.bind SessionOAuth.inviteCode) = false)
    (hiid : jsFalsy installation_id = false)
    (hcode : jsFalsy code = false)
    (hex : provider.createToken (code.getD "") = .ok auth)
    (hrt : auth.refreshToken = none) :
    (githubOauthCallback provider sess code state installation_id setup_action).error
        = some CallbackError.invalidAuthToken ∧
    (githubOauthCallback provider sess code state installation_id setup_action).effects.upserts
        = [] ∧
    (githubOauthCallback provider sess code state installation_id setup_action).session
        = sess := by
  have hcond : ¬(jsFalsy state ∨ state ≠ sess.bind SessionOAuth.state) := by
    rintro (hb | hne)
    · simp [hs] at hb
    · exact hne hmatch
  unfold githubOauthCallback
  rw [if_neg hcond]
  simp [huser, hiid, hcode, hex, hrt]

/-- Witness for C6: the provider exchanges "codeX" into a token with no
refresh token. -/
theorem C6_witness :
    providerNoRefresh.createToken "codeX" = .ok { token := "T", refreshToken := none } ∧
    ((githubOauthCallback providerNoRefresh sessFull (some "codeX") (some "eu_AbC123")
        (some "55") none).error = some CallbackError.invalidAuthToken ∧
     (githubOauthCallback providerNoRefresh sessFull (some "codeX") (some "eu_AbC123")
        (some "55") none).effects.upserts = [] ∧
     (githubOauthCallback providerNoRefresh sessFull (some "codeX") (some "eu_AbC123")
        (some "55") none).session = sessFull) :=
  ⟨rfl,
   C6_missing_refresh_token_writes_nothing providerNoRefresh sessFull
     (some "codeX") (some "eu_AbC123") (some "55") none
     { token := "T", refreshToken := none }
     (by decide) (by decide) (by decide) (by decide) (by decide) rfl rfl⟩

/-- C7 (failing input): when the commit path runs with no stored returnTo,
the `new URL(returnTo || '/')` construction throws (a bare "/" is not a
valid absolute URL), so instead of the claimed fallback redirect the run
errors out after the upsert: no 302, no Location header, and the session is
not cleared. -/
theorem C7_absent_returnTo_throws_instead_of_root_redirect :
    githubOauthCallback providerMatch sessNoReturn (some "codeX") (some "eu_AbC123")
        (some "55") none =
      { status := none, location := none, session := sessNoReturn,
        error := some CallbackError.invalidURL,
        effects := { createTokenCalls := 1, listInstallationsCalls := 1,
                     upserts := [("user-1", "55", "T", "R")] } } := by
  decide

/-- C8: with a valid state, if the session context has no initiating user
uuid or the query has no installation_id, the callback is rejected with a
400 client error and no side effects: zero provider calls, zero upserts,
session unchanged. -/
theorem C8_missing_user_or_installation_rejected_before_exchange
    (provider : Provider) (sess : Option SessionOAuth)
    (code state installation_id setup_action : Option String)
    (hs : jsFalsy state = false)
    (hmatch : state = sess.bind SessionOAuth.state)
    (hmiss : sess.bind SessionOAuth.inviteCode = none ∨ installation_id = none) :
    (githubOauthCallback provider sess code state installation_id setup_action).status
        = some 400 ∧
    (githubOauthCallback provider sess code state installation_id setup_action).effects
        = noEffects ∧
    (githubOauthCallback provider sess code state installation_id setup_action).session
        = sess ∧
    ((githubOauthCallback provider sess code state installation_id setup_action).error
        = some CallbackError.userUuidMissing ∨
     (githubOauthCallback provider sess code state installation_id setup_action).error
        = some CallbackError.installationIdMissing) := by
  have hcond : ¬(jsFalsy state ∨ state ≠ sess.bind SessionOAuth.state) := by
    rintro (hb | hne)
    · simp [hs] at hb
    · exact hne hmatch
  unfold githubOauthCallback
  rw [if_neg hcond]
  rcases hmiss with hu | hi
  · simp [hu, show jsFalsy none = true from rfl]
  · cases hb : jsFalsy (sess.bind SessionOAuth.inviteCode) with
    | true => simp [hb]
    | false => simp [hb, hi, show jsFalsy none = true from rfl]

/-- Witness for C8: the session has a pending state but no initiating user
uuid. -/
theorem C8_witness :
    sessNoUser.bind SessionOAuth.inviteCode = none ∧
    ((githubOauthCallback providerMatch sessNoUser (some "codeX") (some "eu_AbC123")
        (some "55") none).status = some 400 ∧
     (githubOauthCallback providerMatch sessNoUser (some "codeX") (some "eu_AbC123")
        (some "55") none).effects = noEffects ∧
     (githubOauthCallback providerMatch sessNoUser (some "codeX") (some "eu_AbC123")
        (some "55") none).session = sessNoUser ∧
     ((githubOauthCallback providerMatch sessNoUser (some "codeX") (some "eu_AbC123")
        (some "55") none).error = some CallbackError.userUuidMissing ∨
      (githubOauthCallback providerMatch sessNoUser (some "codeX") (some "eu_AbC123")
        (some "55") none).error = some CallbackError.installationIdMissing)) :=
  ⟨rfl,
   C8_missing_user_or_installation_rejected_before_exchange providerMatch sessNoUser
     (some "codeX") (some "eu_AbC123") (some "55") none
     (by decide) (by decide) (Or.inl rfl)⟩

/-- C9: with a valid state, a present user uuid and installation_id, a
setup_action other than "review" and no code parameter, the callback does
nothing at all: no provider call, no upsert, no session change, no status
and no error. -/
theorem C9_missing_code_is_a_silent_noop
    (provider : Provider) (sess : Option SessionOAuth)
    (state installation_id setup_action : Option String)
    (hs : jsFalsy state = false)
    (hmatch : state = sess.bind SessionOAuth.state)
    (huser : jsFalsy (sess.bind SessionOAuth.inviteCode) = false)
    (hiid : jsFalsy installation_id = false)
    (hreview : setup_action ≠ some "review") :
    githubOauthCallback provider sess none state installation_id setup_action =
      { status := none, location := none, session := sess,
        error := none, effects := noEffects } := by
  have hcond : ¬(jsFalsy state ∨ state ≠ sess.bind SessionOAuth.state) := by
    rintro (hb | hne)
    · simp [hs] at hb
    · exact hne hmatch
  unfold githubOauthCallback
  rw [if_neg hcond]
  simp [huser, hiid, hreview, show jsFalsy none = true from rfl]

/-- Witness for C9: a matching state, user uuid and installation id present,
no setup_action, and no code. -/
theorem C9_witness :
    (some "setup" : Option String) ≠ some "review" ∧
    githubOauthCallback providerMatch sessFull none (some "eu_AbC123")
        (some "55") (some "setup") =
      { status := none, location := none, session := sessFull,
        error := none, effects := noEffects } :=
  ⟨by decide,
   C9_missing_code_is_a_silent_noop providerMatch sessFull
     (some "eu_AbC123") (some "55") (some "setup")
     (by decide) (by decide) (by decide) (by decide) (by decide)⟩

/-- C10: the initiation endpoint ignores the redirect query parameter and
the previous session context entirely (the run is the same function of the
config, the nanoid output and the user uuid), and it installs a fresh
context whose returnTo is always the /generalSettings/integrations path
resolved against the configured site URL, whose state is the generated
token, and whose inviteCode is the initiating user uuid. -/
theorem C10_initiation_stores_fixed_return_target
    (cfg : LightdashConfig) (prev1 prev2 : Option SessionOAuth)
    (nanoidOut userUuid : String) (q1 q2 : Option String) :
    installGithubAppForOrganization cfg prev1 nanoidOut userUuid q1 =
      installGithubAppForOrganization cfg prev2 nanoidOut userUuid q2 ∧
    (installGithubAppForOrganization cfg prev1 nanoidOut userUuid q1).session =
      some { state := some (cfg.redirectDomain ++ "_" ++ jsReplaceFirstUnderscore nanoidOut),
             returnTo := some (resolveRootPath "/generalSettings/integrations" cfg.siteUrl),
             inviteCode := some userUuid } :=
  ⟨rfl, rfl⟩

end Lightdash
